import Mathlib

/-
Verification of the client-side presentation logic of the patient-chart
widgets: the conditions-overview list pipeline
(`packages/esm-patient-conditions-app/src/conditions/conditions-overview.component.tsx`)
and the order-cancellation form
(`packages/esm-patient-orders-app/src/order-cancellation-form/cancel-order-form.component.tsx`).

The TypeScript sources are shallowly embedded: JS strings become `String`,
optional fields become `Option`, timestamps (absolute instants in ms) become
`Int`, external collaborators (`parseDate`/`formatDate`, `new Date(s).getTime()`)
become function parameters, and the effectful submission path becomes an
explicit list of emitted effects.
-/

set_option autoImplicit false

namespace PatientChart

/-! ## Conditions overview: data model

A clinical condition record as consumed by the overview component.
`display` may be absent (the source sorts it with `display?.localeCompare`),
`onsetDateTime` and `abatementDateTime` are optional ISO date strings. -/

structure Condition where
  id : String
  display : Option String
  clinicalStatus : String
  onsetDateTime : Option String
  abatementDateTime : Option String
deriving Repr, DecidableEq

/-- The status filter dropdown value: one of `All`, `Active`, `Inactive`
(`useState<'All' | 'Active' | 'Inactive'>('Active')`). -/
inductive FilterState where
  | All
  | Active
  | Inactive
deriving Repr, DecidableEq

/-- The string value the dropdown selection carries, compared against
`condition.clinicalStatus` with `===`. -/
def FilterState.toStatusString : FilterState → String
  | .All => "All"
  | .Active => "Active"
  | .Inactive => "Inactive"

/-- Embedding of the `filteredConditions` memo:
`if (!filter || filter == 'All') return conditions;`
`if (filter) return conditions?.filter((c) => c.clinicalStatus === filter);`
The filter value is one of the three dropdown strings, so `!filter` is never
true and the second guard always holds. -/
def filteredConditions (filter : FilterState) (conditions : List Condition) :
    List Condition :=
  if filter = .All then conditions
  else conditions.filter (fun c => c.clinicalStatus = filter.toStatusString)

/-! ## Conditions overview: row projection -/

/-- The `ConditionTableRow` shape: the spread of the source condition plus the
derived `condition`, `onsetDateTimeRender` and `status` fields. -/
structure ConditionTableRow where
  id : String
  display : Option String
  clinicalStatus : String
  onsetDateTime : Option String
  abatementDateTime : Option String
  condition : Option String
  onsetDateTimeRender : String
  status : String
deriving Repr, DecidableEq

/-- JS truthiness of an optional string: `undefined` and the empty string are
falsy, every other string is truthy. -/
def truthyStr : Option String → Bool
  | none => false
  | some s => s != ""

/-- JS `ToString` as applied to a possibly-undefined string value
(`undefined` coerces to the literal string `undefined`). -/
def jsToString : Option String → String
  | none => "undefined"
  | some s => s

/-- Embedding of the body of the `tableRows` memo for one condition. `fmt`
stands for the external `formatDate(parseDate(s), mode wide, time for today)`
composition from the framework. The source:
`{ ...condition, id, condition: condition.display, abatementDateTime,`
`  onsetDateTimeRender: condition.onsetDateTime ? fmt(...) : '--',`
`  status: condition.clinicalStatus }`. -/
def toTableRow (fmt : String → String) (c : Condition) : ConditionTableRow :=
  { id := c.id
    display := c.display
    clinicalStatus := c.clinicalStatus
    onsetDateTime := c.onsetDateTime
    abatementDateTime := c.abatementDateTime
    condition := c.display
    onsetDateTimeRender :=
      if truthyStr c.onsetDateTime then fmt (jsToString c.onsetDateTime) else "--"
    status := c.clinicalStatus }

/-- Embedding of the `tableRows` memo: map the filtered conditions through the
row projection. -/
def tableRows (fmt : String → String) (cs : List Condition) :
    List ConditionTableRow :=
  cs.map (toTableRow fmt)

/-! ## Conditions overview: sort comparators -/

/-- JS `String.prototype.localeCompare` modelled as a three-way ordinal string
comparison returning -1, 0 or 1. Only its sign and totality matter to the
claims; the locale-specific collation is opaque. -/
def localeCompare (a b : String) : Int :=
  match compare a b with
  | .lt => -1
  | .eq => 0
  | .gt => 1

/-- Embedding of the condition-name comparator
`(valueA, valueB) => valueA.display?.localeCompare(valueB.display)`.
When `valueA.display` is `undefined` the optional chain short-circuits and the
comparator yields `undefined` (here `none`); otherwise `localeCompare` coerces
a missing `valueB.display` to the string `undefined`. -/
def displaySortFunc (a b : ConditionTableRow) : Option Int :=
  a.display.map (fun s => localeCompare s (jsToString b.display))

/-- Embedding of the onset-date comparator
`(valueA, valueB) => valueA.onsetDateTime && valueB.onsetDateTime`
`  ? new Date(valueA.onsetDateTime).getTime() - new Date(valueB.onsetDateTime).getTime()`
`  : 0`.
`getTime` stands for `new Date(s).getTime()`, the conversion of the ISO string
to an absolute instant in milliseconds. -/
def onsetSortFunc (getTime : String → Int) (a b : ConditionTableRow) : Int :=
  if truthyStr a.onsetDateTime && truthyStr b.onsetDateTime then
    getTime (a.onsetDateTime.getD "") - getTime (b.onsetDateTime.getD "")
  else 0

/-- Embedding of the status comparator
`(valueA, valueB) => valueA.status?.localeCompare(valueB.status)`
(`status` is always a string on a projected row, so the optional chain never
short-circuits there). -/
def statusSortFunc (a b : ConditionTableRow) : Int :=
  localeCompare a.status b.status

/-! ## Order cancellation form: data model -/

/-- The order being cancelled (read-only input to the form). -/
structure Order where
  uuid : String
  display : String
  orderNumber : String
deriving Repr, DecidableEq

/-- The cancellation request body built in `cancelOrderRequest`. -/
structure CancelPayload where
  fulfillerStatus : String
  fulfillerComment : String
deriving Repr, DecidableEq

/-- The raw form field values handed to the zod resolver: each field is
`undefined` until set. Dates are absolute instants in milliseconds (JS `Date`
compares through `valueOf`). -/
structure RawFormValues where
  cancellationDate : Option Int
  reasonForCancellation : Option String
deriving Repr, DecidableEq

/-- The parsed form data (`z.infer<typeof cancelOrderSchema>`). -/
structure CancelOrderFormData where
  cancellationDate : Int
  reasonForCancellation : String
deriving Repr, DecidableEq

/-- The field-errors object react-hook-form passes to the error callback:
an association of field path to message, carrying only the failing fields. -/
abbrev FieldErrors := List (String × String)

/-- JS property lookup on the errors object (`err?.someKey`). -/
def jsLookup (obj : FieldErrors) (key : String) : Option String :=
  (obj.find? (fun kv => kv.1 = key)).map (fun kv => kv.2)

/-! ## Order cancellation form: validation (the zod schema)

The translation lookup `t(key, fallback)` falls back to the literal default
text, which is what these message constants hold. -/

def cancellationDateRequiredMsg : String := "Cancellation date is required"

def dateCannotBeBeforeTodayMsg : String := "Date cannot be before today"

def reasonForCancellationRequiredMsg : String := "Reason for cancellation is required"

/-- Embedding of the `cancellationDate` field schema:
`z.date(required_error).refine((date) => date >= dayjs().startOf('day').toDate())`.
`startOfToday` is the instant `dayjs().startOf('day')` in milliseconds. -/
def validateCancellationDate (startOfToday : Int) :
    Option Int → Except String Int
  | none => .error cancellationDateRequiredMsg
  | some d => if d ≥ startOfToday then .ok d else .error dateCannotBeBeforeTodayMsg

/-- Embedding of the `reasonForCancellation` field schema:
`z.string(required_error)` — any present string passes, only a missing value
fails. -/
def validateReasonForCancellation :
    Option String → Except String String
  | none => .error reasonForCancellationRequiredMsg
  | some r => .ok r

/-- Embedding of `cancelOrderSchema` as run by the zod resolver over the raw
field values: parse both fields, and on any failure produce the field-errors
object keyed by the failing fields' paths. -/
def cancelOrderSchemaParse (startOfToday : Int) (raw : RawFormValues) :
    Except FieldErrors CancelOrderFormData :=
  match validateCancellationDate startOfToday raw.cancellationDate,
        validateReasonForCancellation raw.reasonForCancellation with
  | .ok d, .ok r => .ok ⟨d, r⟩
  | rd, rr =>
      .error
        ((match rd with
          | .error m => [("cancellationDate", m)]
          | .ok _ => []) ++
         (match rr with
          | .error m => [("reasonForCancellation", m)]
          | .ok _ => []))

/-! ## Order cancellation form: submission -/

inductive SnackbarKind where
  | success
  | error
deriving Repr, DecidableEq

/-- The observable effects the form component performs, in program order. -/
inductive Effect where
  | setShowErrorNotification (value : Bool)
  | networkCancelOrder (orderUuid : String) (payload : CancelPayload)
  | closeWorkspace
  | mutate
  | showSnackbar (kind : SnackbarKind) (title : String) (subtitle : String)
deriving Repr, DecidableEq

/-- The success snackbar subtitle after the translation lookup interpolates
the order number into
`Order <orderNumber> has been cancelled successfully`. -/
def successSubtitle (order : Order) : String :=
  "Order " ++ order.orderNumber ++ " has been cancelled successfully"

/-- Embedding of `cancelOrderRequest`, the valid-submit handler. It clears the
error notification, builds the payload with the fixed `DECLINED` sentinel and
the entered reason verbatim, issues the single `cancelOrder` network call, and
— once that promise settles with `networkResult` — runs the matching
continuation: on success close the workspace, trigger the order-list re-fetch
(`mutate`) and show the success snackbar naming the order number; on rejection
show the error snackbar with the rejection's message. The returned list is the
effect trace in temporal order. -/
def cancelOrderRequest (order : Order) (data : CancelOrderFormData)
    (networkResult : Except String Unit) : List Effect :=
  let payload : CancelPayload :=
    { fulfillerStatus := "DECLINED"
      fulfillerComment := data.reasonForCancellation }
  Effect.setShowErrorNotification false ::
  Effect.networkCancelOrder order.uuid payload ::
  match networkResult with
  | .ok _ =>
      [Effect.closeWorkspace,
       Effect.mutate,
       Effect.showSnackbar .success "Order cancelled" (successSubtitle order)]
  | .error msg =>
      [Effect.showSnackbar .error "Error cancelling order" msg]

/-- Embedding of the invalid-submit handler `onError`:
`if (err?.oneFieldRequired) setShowErrorNotification(true)`.
The lookup is a plain JS property access on the field-errors object. -/
def onErrorHandler (err : FieldErrors) : List Effect :=
  match jsLookup err "oneFieldRequired" with
  | some _ => [Effect.setShowErrorNotification true]
  | none => []

/-- Embedding of `handleSubmit(cancelOrderRequest, onError)` as wired to the
submit button: run the zod resolver over the raw values; when validation
passes run the valid handler, otherwise hand the field errors to the error
handler and make no network call. -/
def handleSubmitCancelOrder (startOfToday : Int) (order : Order)
    (raw : RawFormValues) (networkResult : Except String Unit) : List Effect :=
  match cancelOrderSchemaParse startOfToday raw with
  | .ok data => cancelOrderRequest order data networkResult
  | .error errs => onErrorHandler errs

/-- Recognizer for the network-call effect, used to count cancellation calls
in a trace. -/
def Effect.isNetworkCall : Effect → Bool
  | .networkCancelOrder _ _ => true
  | _ => false

/-! ## Order cancellation form: submit-button interaction model

react-hook-form's `handleSubmit` sets `isSubmitting` for the duration of the
handler it wraps and the submit button renders `disabled=isSubmitting`. The
handler `cancelOrderRequest` starts the `cancelOrder` promise but returns
without returning or awaiting it, so its synchronous body is the whole
duration of `isSubmitting`: by the time another UI event can be delivered,
`isSubmitting` is `false` again while the network call is still pending.
`inFlight` counts pending `cancelOrder` calls. -/

structure SubmitterState where
  isSubmitting : Bool
  inFlight : Nat
deriving Repr, DecidableEq

inductive UiEvent where
  | clickSubmit
  | networkSettles
deriving Repr, DecidableEq

/-- One UI event against the form. A click on a disabled button does nothing;
a click on the enabled button runs the submit handler synchronously (starting
one network call) and leaves `isSubmitting` back at `false` because the
handler's promise resolves as soon as its synchronous body returns.
`networkSettles` is one pending `cancelOrder` promise settling. -/
def submitStep (s : SubmitterState) : UiEvent → SubmitterState
  | .clickSubmit =>
      if s.isSubmitting then s
      else { isSubmitting := false, inFlight := s.inFlight + 1 }
  | .networkSettles => { s with inFlight := s.inFlight - 1 }

/-- Run a sequence of UI events from a state. -/
def runUiEvents (s : SubmitterState) (es : List UiEvent) : SubmitterState :=
  es.foldl submitStep s

/-- The initial form state: idle, no call in flight. -/
def initialSubmitterState : SubmitterState :=
  { isSubmitting := false, inFlight := 0 }

/-! ## Sample data for concrete evaluations -/

/-- A sample active condition with an onset date. -/
def sampleActive : Condition :=
  { id := "c1", display := some "Asthma", clinicalStatus := "Active"
    onsetDateTime := some "2023-01-01", abatementDateTime := none }

/-- A sample inactive condition without an onset date. -/
def sampleInactive : Condition :=
  { id := "c2", display := some "Fever", clinicalStatus := "Inactive"
    onsetDateTime := none, abatementDateTime := none }

/-- A projected row with a truthy onset string. -/
def rowOnsetA : ConditionTableRow :=
  { id := "r1", display := some "Asthma", clinicalStatus := "Active"
    onsetDateTime := some "2023-01-02", abatementDateTime := none
    condition := some "Asthma", onsetDateTimeRender := "x", status := "Active" }

/-- A second projected row with a truthy onset string. -/
def rowOnsetB : ConditionTableRow :=
  { id := "r2", display := some "Fever", clinicalStatus := "Active"
    onsetDateTime := some "2023-01-01", abatementDateTime := none
    condition := some "Fever", onsetDateTimeRender := "y", status := "Active" }

/-- A projected row without an onset string. -/
def rowNoOnset : ConditionTableRow :=
  { id := "r3", display := some "Cough", clinicalStatus := "Active"
    onsetDateTime := none, abatementDateTime := none
    condition := some "Cough", onsetDateTimeRender := "--", status := "Active" }

/-- A projected row whose display label is missing. -/
def rowNoDisplay : ConditionTableRow :=
  { id := "r4", display := none, clinicalStatus := "Active"
    onsetDateTime := none, abatementDateTime := none
    condition := none, onsetDateTimeRender := "--", status := "Active" }

/-- A projected row whose display label is the string Asthma. -/
def rowDisplayAsthma : ConditionTableRow :=
  { id := "r5", display := some "Asthma", clinicalStatus := "Active"
    onsetDateTime := none, abatementDateTime := none
    condition := some "Asthma", onsetDateTimeRender := "--", status := "Active" }

/-- A sample order under cancellation. -/
def sampleOrder : Order :=
  { uuid := "uuid-1", display := "Test order", orderNumber := "ORD-1" }

/-! ## Theorems for the claims -/

/-- C2: for every sequence of conditions, the filtered output is a sublist of
the input (original relative order, no mutation); with the `All` filter the
output is the input sequence itself; with any other filter the output retains
exactly the conditions whose clinical status equals the filter value. -/
theorem C2_condition_filtering (filter : FilterState)
    (conditions : List Condition) :
    (filteredConditions filter conditions).Sublist conditions ∧
    (filter = .All → filteredConditions filter conditions = conditions) ∧
    (filter ≠ .All →
      filteredConditions filter conditions
        = conditions.filter (fun c => c.clinicalStatus = filter.toStatusString)) := by
  refine ⟨?_, ?_, ?_⟩
  · unfold filteredConditions
    split
    · exact List.Sublist.refl _
    · exact List.filter_sublist _
  · intro h
    simp [filteredConditions, h]
  · intro h
    simp [filteredConditions, h]

/-- Witness for C2 at a concrete filter and condition list. -/
theorem C2_condition_filtering_witness :
    (FilterState.Active ≠ FilterState.All ∧
      filteredConditions .Active [sampleActive, sampleInactive]
        = [sampleActive, sampleInactive].filter
            (fun c => c.clinicalStatus = FilterState.Active.toStatusString)) ∧
    (FilterState.All = FilterState.All ∧
      filteredConditions .All [sampleActive, sampleInactive]
        = [sampleActive, sampleInactive]) :=
  ⟨⟨by decide, (C2_condition_filtering .Active [sampleActive, sampleInactive]).2.2
      (by decide)⟩,
   ⟨rfl, (C2_condition_filtering .All [sampleActive, sampleInactive]).2.1 rfl⟩⟩

/-- C5: the onset-date comparator returns the numeric difference of the two
converted onset instants when both rows carry a (truthy) onset timestamp, and
returns zero whenever either row lacks one. -/
theorem C5_onset_comparator (getTime : String → Int)
    (a b : ConditionTableRow) :
    (∀ sa sb, a.onsetDateTime = some sa → sa ≠ "" →
      b.onsetDateTime = some sb → sb ≠ "" →
      onsetSortFunc getTime a b = getTime sa - getTime sb) ∧
    (truthyStr a.onsetDateTime = false ∨ truthyStr b.onsetDateTime = false →
      onsetSortFunc getTime a b = 0) := by
  constructor
  · intro sa sb ha hsa hb hsb
    simp [onsetSortFunc, ha, hb, truthyStr, hsa, hsb]
  · intro h
    rcases h with h | h <;> simp [onsetSortFunc, h]

/-- Witness for C5 at concrete rows and a concrete conversion function. -/
theorem C5_onset_comparator_witness :
    rowOnsetA.onsetDateTime = some "2023-01-02" ∧
    onsetSortFunc (fun s => (s.length : Int)) rowOnsetA rowOnsetB
      = (("2023-01-02".length : Int) - ("2023-01-01".length : Int)) ∧
    truthyStr rowNoOnset.onsetDateTime = false ∧
    onsetSortFunc (fun s => (s.length : Int)) rowOnsetA rowNoOnset = 0 :=
  ⟨rfl,
   (C5_onset_comparator (fun s => (s.length : Int)) rowOnsetA rowOnsetB).1
     "2023-01-02" "2023-01-01" rfl (by decide) rfl (by decide),
   rfl,
   (C5_onset_comparator (fun s => (s.length : Int)) rowOnsetA rowNoOnset).2
     (Or.inr rfl)⟩

/-- C6: the condition-name comparator is not total. At a pair whose first row
has no display label the optional chain short-circuits and no number at all is
produced (`none`, the JS `undefined`); and a row with a present label compared
against a row with a missing label is not treated as equal — the missing label
is coerced to the string `undefined` and compared lexicographically. -/
theorem C6_display_comparator_partial :
    displaySortFunc rowNoDisplay rowDisplayAsthma = none ∧
    displaySortFunc rowDisplayAsthma rowNoDisplay ≠ some 0 := by
  exact ⟨rfl, by decide⟩

/-- C8: row projection preserves count and relative order, copies every source
field, renders the onset as the formatted date exactly when the onset string
is present (truthy) and as the fixed placeholder `--` otherwise, and sets the
status string to the clinical status verbatim. `fmt` is the external
locale-aware date formatter. -/
theorem C8_row_projection (fmt : String → String) (cs : List Condition) :
    (tableRows fmt cs).length = cs.length ∧
    (∀ i : Nat, (tableRows fmt cs)[i]? = (cs[i]?).map (toTableRow fmt)) ∧
    (∀ c : Condition,
      (toTableRow fmt c).id = c.id ∧
      (toTableRow fmt c).display = c.display ∧
      (toTableRow fmt c).clinicalStatus = c.clinicalStatus ∧
      (toTableRow fmt c).onsetDateTime = c.onsetDateTime ∧
      (toTableRow fmt c).abatementDateTime = c.abatementDateTime ∧
      (toTableRow fmt c).condition = c.display ∧
      (∀ s, c.onsetDateTime = some s → s ≠ "" →
        (toTableRow fmt c).onsetDateTimeRender = fmt s) ∧
      (truthyStr c.onsetDateTime = false →
        (toTableRow fmt c).onsetDateTimeRender = "--") ∧
      (toTableRow fmt c).status = c.clinicalStatus) := by
  refine ⟨by simp [tableRows], fun i => by simp [tableRows], fun c => ?_⟩
  refine ⟨rfl, rfl, rfl, rfl, rfl, rfl, ?_, ?_, rfl⟩
  · intro s hs hne
    simp [toTableRow, truthyStr, hs, hne, jsToString]
  · intro h
    simp [toTableRow, h]

/-- Witness for C8 at a concrete formatter and concrete conditions. -/
theorem C8_row_projection_witness :
    sampleActive.onsetDateTime = some "2023-01-01" ∧
    (toTableRow (fun s => s ++ "!") sampleActive).onsetDateTimeRender
      = "2023-01-01" ++ "!" ∧
    truthyStr sampleInactive.onsetDateTime = false ∧
    (toTableRow (fun s => s ++ "!") sampleInactive).onsetDateTimeRender
      = "--" := by
  have h := C8_row_projection (fun s => s ++ "!") [sampleActive, sampleInactive]
  exact ⟨rfl, (h.2.2 sampleActive).2.2.2.2.2.2.1 "2023-01-01" rfl (by decide),
    rfl, (h.2.2 sampleInactive).2.2.2.2.2.2.2.1 rfl⟩

/-- C3: the cancellation-date schema rejects a missing date with the required
message, accepts every date at or after the start of the current day, and
rejects every date strictly before it with the before-today message. -/
theorem C3_date_validation (startOfToday : Int) :
    validateCancellationDate startOfToday none
      = .error cancellationDateRequiredMsg ∧
    (∀ d : Int, startOfToday ≤ d →
      validateCancellationDate startOfToday (some d) = .ok d) ∧
    (∀ d : Int, d < startOfToday →
      validateCancellationDate startOfToday (some d)
        = .error dateCannotBeBeforeTodayMsg) := by
  refine ⟨rfl, fun d h => ?_, fun d h => ?_⟩
  · simp [validateCancellationDate, h]
  · simp [validateCancellationDate, not_le.mpr h]

/-- Witness for C3: with start of today at 0, the date 3 is accepted and the
date -1 is rejected as before today. -/
theorem C3_date_validation_witness :
    ((0 : Int) ≤ 3 ∧ validateCancellationDate 0 (some 3) = .ok 3) ∧
    ((-1 : Int) < 0 ∧ validateCancellationDate 0 (some (-1))
        = .error dateCannotBeBeforeTodayMsg) :=
  ⟨⟨by decide, (C3_date_validation 0).2.1 3 (by decide)⟩,
   ⟨by decide, (C3_date_validation 0).2.2 (-1) (by decide)⟩⟩

/-- C4 counterexample: the reason schema is a bare string schema with only a
required-error, so the empty string passes the field validation — and passes
the whole form schema — contradicting the claim that the empty string is
rejected. -/
theorem C4_empty_reason_accepted :
    validateReasonForCancellation (some "") = .ok "" ∧
    cancelOrderSchemaParse 0 ⟨some 0, some ""⟩
      = .ok ⟨0, ""⟩ :=
  ⟨rfl, rfl⟩

/-- C4 (amended): reason validation rejects a missing reason with the
required message and accepts every present string, including the empty
string. -/
theorem C4_reason_validation :
    validateReasonForCancellation none
      = .error reasonForCancellationRequiredMsg ∧
    ∀ s : String, validateReasonForCancellation (some s) = .ok s :=
  ⟨rfl, fun _ => rfl⟩

/-- C1: for every submission whose validation passes and every network
outcome, the effect trace contains exactly one cancellation call, with the
fixed DECLINED sentinel and the entered reason verbatim. When the call
resolves successfully the trace is exactly: clear notice, the call, close the
workspace, re-fetch the order list, show the success snackbar — so close,
re-fetch and the notification each happen exactly once and only after the
call — and the snackbar subtitle contains the order's order-number. When the
call rejects the trace ends with only the error snackbar carrying the failure
message: the workspace is not closed and no re-fetch is triggered. -/
theorem C1_submission_effects (startOfToday : Int) (order : Order)
    (raw : RawFormValues) (data : CancelOrderFormData)
    (networkResult : Except String Unit)
    (hvalid : cancelOrderSchemaParse startOfToday raw = .ok data) :
    ((handleSubmitCancelOrder startOfToday order raw networkResult).filter
        Effect.isNetworkCall
      = [Effect.networkCancelOrder order.uuid
          { fulfillerStatus := "DECLINED"
            fulfillerComment := data.reasonForCancellation }]) ∧
    (networkResult = .ok () →
      handleSubmitCancelOrder startOfToday order raw networkResult
        = [Effect.setShowErrorNotification false,
           Effect.networkCancelOrder order.uuid
             { fulfillerStatus := "DECLINED"
               fulfillerComment := data.reasonForCancellation },
           Effect.closeWorkspace,
           Effect.mutate,
           Effect.showSnackbar .success "Order cancelled"
             (successSubtitle order)]) ∧
    (∃ pre suf, successSubtitle order = pre ++ order.orderNumber ++ suf) ∧
    (∀ msg, networkResult = .error msg →
      handleSubmitCancelOrder startOfToday order raw networkResult
        = [Effect.setShowErrorNotification false,
           Effect.networkCancelOrder order.uuid
             { fulfillerStatus := "DECLINED"
               fulfillerComment := data.reasonForCancellation },
           Effect.showSnackbar .error "Error cancelling order" msg] ∧
      Effect.closeWorkspace ∉
        handleSubmitCancelOrder startOfToday order raw networkResult ∧
      Effect.mutate ∉
        handleSubmitCancelOrder startOfToday order raw networkResult) := by
  have htrace : handleSubmitCancelOrder startOfToday order raw networkResult
      = cancelOrderRequest order data networkResult := by
    unfold handleSubmitCancelOrder
    rw [hvalid]
  refine ⟨?_, ?_, ⟨"Order ", " has been cancelled successfully", rfl⟩, ?_⟩
  · rw [htrace]
    cases networkResult <;> rfl
  · intro h
    subst h
    rw [htrace]
    rfl
  · intro msg h
    subst h
    rw [htrace]
    refine ⟨rfl, ?_, ?_⟩ <;> simp [cancelOrderRequest]

/-- Witness for C1 at a concrete valid submission and a successful network
outcome. -/
theorem C1_submission_effects_witness :
    cancelOrderSchemaParse 0 ⟨some 0, some "duplicate order"⟩
      = .ok ⟨0, "duplicate order"⟩ ∧
    handleSubmitCancelOrder 0 sampleOrder
        ⟨some 0, some "duplicate order"⟩ (.ok ())
      = [Effect.setShowErrorNotification false,
         Effect.networkCancelOrder sampleOrder.uuid
           ⟨"DECLINED", "duplicate order"⟩,
         Effect.closeWorkspace,
         Effect.mutate,
         Effect.showSnackbar .success "Order cancelled"
           (successSubtitle sampleOrder)] :=
  ⟨rfl,
   (C1_submission_effects 0 sampleOrder ⟨some 0, some "duplicate order"⟩
      ⟨0, "duplicate order"⟩ (.ok ()) rfl).2.1 rfl⟩

/-- C7: at a submission that fails validation (date strictly before today,
reason present — the spec's own scenario) the resolver reports an error on
the date field only and no network call is made, but the global
missing-required-fields notice is never shown: the error callback tests the
key oneFieldRequired, which the resolver never produces (errors are keyed by
the form's field paths), so the lookup misses and the submit produces an
empty effect trace — in particular no `setShowErrorNotification true`. -/
theorem C7_global_notice_never_shown :
    cancelOrderSchemaParse 1 ⟨some 0, some "duplicate"⟩
      = .error [("cancellationDate", dateCannotBeBeforeTodayMsg)] ∧
    jsLookup [("cancellationDate", dateCannotBeBeforeTodayMsg)]
        "oneFieldRequired" = none ∧
    handleSubmitCancelOrder 1 sampleOrder ⟨some 0, some "duplicate"⟩ (.ok ())
      = [] :=
  ⟨rfl, rfl, rfl⟩

/-- C9: the submit handler starts the cancellation call but does not return
its promise, so `isSubmitting` — and with it the button's disabled state — is
already back to `false` after one click while the call is still pending, and
a second click starts a second concurrent cancellation call: two clicks with
no settlement in between leave two calls in flight. -/
theorem C9_double_submission_possible :
    (runUiEvents initialSubmitterState [.clickSubmit]).isSubmitting = false ∧
    (runUiEvents initialSubmitterState [.clickSubmit]).inFlight = 1 ∧
    (runUiEvents initialSubmitterState
        [.clickSubmit, .clickSubmit]).inFlight = 2 :=
  ⟨rfl, rfl, rfl⟩

/-- C10: the cancellation request does not depend on the entered cancellation
date: two validated form states that differ only in the date produce
identical effect traces — the same single call with the same payload — for
every network outcome. -/
theorem C10_date_noninterference (order : Order) (d1 d2 : Int)
    (reason : String) (networkResult : Except String Unit) :
    cancelOrderRequest order
        { cancellationDate := d1, reasonForCancellation := reason }
        networkResult
      = cancelOrderRequest order
          { cancellationDate := d2, reasonForCancellation := reason }
          networkResult := rfl

end PatientChart
